import Mathlib

/-!
Verification development for the MyStock daily stock-screening service.

The embedding follows the Python sources:
* `src/app/views.py` — the watch-list filter (`_update_watch_list`), the three
  strategy definitions (`_get_strategy_1/2/3`) and the daily driver
  (`update_and_broadcast`);
* `src/app/routes.py` — the `/update` HTTP endpoint.

The indicator library `app/strategies` (modules `technical` and `chip`) and the
helpers `app/utils` (`df_mask_helper`, `is_weekday`) are part of the repository
but their files are not available here; their behaviour is modelled from the
specification (each such definition carries a doc comment starting with
`Modelled from the spec:`).  Pandas operations appearing directly in
`views.py` (`sort_values`, `Index.difference`, `dict.get`) are embedded with
their library semantics.

Numeric values are embedded as rationals (`ℚ`); the Python floats in the
sources are decimal literals that rationals represent exactly.
-/

namespace MyStock

/-- The columns of the merged market-data table that the strategies read.
`revMoM`, `revYoY`, `revCumYoY` are the three monthly revenue-growth columns
`(月)營收月增率(%)`, `(月)營收年增率(%)`, `(月)累積營收年增率(%)`;
`foreignBuy` is the institutional net-buy column `外資買賣超`. -/
inductive Field
  | close       -- 收盤
  | openPrice   -- 開盤
  | high        -- 最高
  | low         -- 最低
  | volume
  | mean5
  | mean20
  | mean60
  | k9
  | d9
  | j9
  | osc
  | mean5vol    -- mean_5_volume
  | mean20vol   -- mean_20_volume
  | foreignBuy  -- 外資買賣超
  | revMoM
  | revYoY
  | revCumYoY
  deriving DecidableEq, Repr

/-- One row of the merged market-data table (`market_data_df`), keyed by the
stock id (`代號`).  Time-indexed columns are lists ordered oldest → newest;
the scalar columns hold the latest value only. -/
structure StockRecord where
  id : String
  name : String
  industry : String        -- 產業別
  close : List ℚ
  openPrice : List ℚ
  high : List ℚ
  low : List ℚ
  volume : List ℚ
  mean5 : List ℚ
  mean20 : List ℚ
  mean60 : List ℚ
  k9 : List ℚ
  d9 : List ℚ
  j9 : List ℚ
  osc : List ℚ
  mean5vol : List ℚ
  mean20vol : List ℚ
  foreignBuy : ℚ
  revMoM : ℚ
  revYoY : ℚ
  revCumYoY : ℚ
  deriving DecidableEq, Repr

/-- The series stored in a record for a given (series) column.  The scalar
columns are viewed as singleton histories; only their latest value is ever
read by a condition. -/
def Field.series : Field → StockRecord → List ℚ
  | .close, r => r.close
  | .openPrice, r => r.openPrice
  | .high, r => r.high
  | .low, r => r.low
  | .volume, r => r.volume
  | .mean5, r => r.mean5
  | .mean20, r => r.mean20
  | .mean60, r => r.mean60
  | .k9, r => r.k9
  | .d9, r => r.d9
  | .j9, r => r.j9
  | .osc, r => r.osc
  | .mean5vol, r => r.mean5vol
  | .mean20vol, r => r.mean20vol
  | .foreignBuy, r => [r.foreignBuy]
  | .revMoM, r => [r.revMoM]
  | .revYoY, r => [r.revYoY]
  | .revCumYoY, r => [r.revCumYoY]

/-- The dataset handed to the filter: the rows of `market_data_df` in table
order, together with the set of columns actually present in the table
(`schema`).  A column listed in a record but absent from `schema` models a
dataset whose table simply does not have that column. -/
structure Dataset where
  schema : List Field
  rows : List StockRecord

/-- Observation at day-offset `t` (offset 0 = latest day, 1 = the day
before, …); `none` when the history is shorter than `t + 1`. -/
def atOffset (xs : List ℚ) (t : Nat) : Option ℚ := xs.reverse.get? t

/-- The two comparison directions accepted by the indicator library
(the `"more"` / `"less"` argument strings). -/
inductive Op
  | more
  | less
  deriving DecidableEq, Repr

def Op.apply : Op → ℚ → ℚ → Bool
  | .more, x, y => decide (y < x)
  | .less, x, y => decide (x < y)

/-- One condition of a strategy, as built by the calls in
`_get_strategy_1/2/3` (`src/app/views.py`).  Constructor names follow the
functions of the `app/strategies` modules that produce the corresponding
boolean series:
* `constantCheck` — `technical.technical_indicator_constant_check_df`;
* `greaterOrLessOneDay` — `technical.technical_indicator_greater_or_less_one_day_check_df`;
* `greaterOrLessTwoDay` — `technical.technical_indicator_greater_or_less_two_day_check_df`;
* `differenceOneDay` — `technical.technical_indicator_difference_one_day_check_df`;
* `differenceTwoDay` — `technical.technical_indicator_difference_two_day_check_df`;
* `volumeGreater` — `technical.volume_greater_check_df`;
* `skyrocket` — `technical.skyrocket_check_df`;
* `foreignBuyPositive` — `chip.foreign_buy_positive_check_df`;
* `revenueGrowthAny` — the inline revenue-growth disjunction of `views.py`;
* `notC` — the `~` (logical NOT) applied to a mask in `views.py`. -/
inductive Cond
  | constantCheck (f : Field) (op : Op) (threshold : ℚ) (days : Nat)
  | greaterOrLessOneDay (a b : Field) (op : Op) (ratio : ℚ) (days : Nat)
  | greaterOrLessTwoDay (a b : Field) (op : Op) (ratio : ℚ) (days : Nat)
  | differenceOneDay (a b : Field) (threshold : ℚ) (days : Nat)
  | differenceTwoDay (a b : Field) (op : Op) (factor : ℚ) (normalizer : Field) (days : Nat)
  | volumeGreater (threshold : ℚ) (days : Nat)
  | skyrocket (nDays : Nat) (kChange : ℚ) (redDays : Nat)
  | foreignBuyPositive (threshold : ℚ)
  | revenueGrowthAny
  | notC (c : Cond)
  deriving DecidableEq, Repr

/-- Modelled from the spec (§4.1 ConstantCheck, the missing
`app/strategies/technical.py`): the per-offset comparison
`field[t] {op} threshold`; an offset with no observation evaluates false. -/
def constantStep (f : Field) (op : Op) (threshold : ℚ) (r : StockRecord) (t : Nat) : Bool :=
  match atOffset (f.series r) t with
  | some v => op.apply v threshold
  | none => false

/-- Modelled from the spec (§4.1 FieldRatioSameDay): the per-offset comparison
`fieldA[t] {op} ratio * fieldB[t]`. -/
def oneDayStep (a b : Field) (op : Op) (ratio : ℚ) (r : StockRecord) (t : Nat) : Bool :=
  match atOffset (a.series r) t, atOffset (b.series r) t with
  | some x, some y => op.apply x (ratio * y)
  | _, _ => false

/-- Modelled from the spec (§4.1 FieldRatioCrossDay): the per-offset comparison
`fieldA[t] {op} ratio * fieldB[t-1]` (today against yesterday). -/
def twoDayStep (a b : Field) (op : Op) (ratio : ℚ) (r : StockRecord) (t : Nat) : Bool :=
  match atOffset (a.series r) t, atOffset (b.series r) (t + 1) with
  | some x, some y => op.apply x (ratio * y)
  | _, _ => false

/-- Modelled from the spec (§4.1 AbsDifferenceSameDay): the per-offset check
`|fieldA[t] − fieldB[t]| < threshold`. -/
def differenceOneDayStep (a b : Field) (threshold : ℚ) (r : StockRecord) (t : Nat) : Bool :=
  match atOffset (a.series r) t, atOffset (b.series r) t with
  | some x, some y => decide (|x - y| < threshold)
  | _, _ => false

/-- Modelled from the spec (§4.1 AbsDifferenceCrossDayNormalized): the
per-offset check `(fieldA[t] − fieldB[t]) {op} factor * normalizerField[t-1]`. -/
def differenceTwoDayStep (a b : Field) (op : Op) (factor : ℚ) (normalizer : Field)
    (r : StockRecord) (t : Nat) : Bool :=
  match atOffset (a.series r) t, atOffset (b.series r) t,
      atOffset (normalizer.series r) (t + 1) with
  | some x, some y, some n => op.apply (x - y) (factor * n)
  | _, _, _ => false

/-- Modelled from the spec (§4.1 VolumeThreshold): `volume[t] > threshold`. -/
def volumeStep (threshold : ℚ) (r : StockRecord) (t : Nat) : Bool :=
  match atOffset r.volume t with
  | some v => decide (threshold < v)
  | none => false

/-- Conjunction of a per-offset check over the trailing `days` offsets —
the windowing rule shared by every predicate family (spec §4.1). -/
def windowAll (days : Nat) (p : Nat → Bool) : Bool :=
  (List.range days).all p

/-- Modelled from the spec (§4.1 SkyrocketPattern, the missing
`technical.skyrocket_check_df`): within the trailing `nDays` window the
k-oscillator must change between consecutive days by at least `kChange`, and
when `redDays` is nonzero the `redDays` most recent days must all be
positive-bodied candles with no upper shadow. -/
def skyrocketStep (nDays : Nat) (kChange : ℚ) (redDays : Nat) (r : StockRecord) : Bool :=
  ((List.range nDays).any fun t =>
    match atOffset r.k9 t, atOffset r.k9 (t + 1) with
    | some a, some b => decide (kChange ≤ a - b)
    | _, _ => false) &&
  (decide (redDays = 0) ||
    (List.range redDays).all fun t =>
      match atOffset r.close t, atOffset r.openPrice t, atOffset r.high t with
      | some c, some o, some h => decide (o < c) && decide (h ≤ c)
      | _, _, _ => false)

/-- Modelled from the spec (§4.1, the missing `app/strategies` modules):
per-instrument evaluation of one condition. -/
def Cond.evalR : Cond → StockRecord → Bool
  | .constantCheck f op thr days, r => windowAll days (constantStep f op thr r)
  | .greaterOrLessOneDay a b op ratio days, r => windowAll days (oneDayStep a b op ratio r)
  | .greaterOrLessTwoDay a b op ratio days, r => windowAll days (twoDayStep a b op ratio r)
  | .differenceOneDay a b thr days, r => windowAll days (differenceOneDayStep a b thr r)
  | .differenceTwoDay a b op factor nf days, r =>
      windowAll days (differenceTwoDayStep a b op factor nf r)
  | .volumeGreater thr days, r => windowAll days (volumeStep thr r)
  | .skyrocket n kc red, r => skyrocketStep n kc red r
  | .foreignBuyPositive thr, r => decide (thr ≤ r.foreignBuy)
  | .revenueGrowthAny, r =>
      decide (0 < r.revMoM) || decide (0 < r.revYoY) || decide (0 < r.revCumYoY)
  | .notC c, r => !(c.evalR r)

/-- The dataset columns a condition reads (used for the shape-error check). -/
def Cond.requiredFields : Cond → List Field
  | .constantCheck f _ _ _ => [f]
  | .greaterOrLessOneDay a b _ _ _ => [a, b]
  | .greaterOrLessTwoDay a b _ _ _ => [a, b]
  | .differenceOneDay a b _ _ => [a, b]
  | .differenceTwoDay a b _ _ nf _ => [a, b, nf]
  | .volumeGreater _ _ => [.volume]
  | .skyrocket _ _ _ => [.k9, .close, .openPrice, .high]
  | .foreignBuyPositive _ => [.foreignBuy]
  | .revenueGrowthAny => [.revMoM, .revYoY, .revCumYoY]
  | .notC c => c.requiredFields

/-- A boolean series keyed by stock id — the result of evaluating one
condition (one pandas boolean `Series` of `views.py`).  Keys are unique in
every series the program builds; lookup returns the first matching entry,
matching dict/Series indexing. -/
def Mask := List (String × Bool)
  deriving DecidableEq, Repr

def Mask.lookup : Mask → String → Option Bool
  | [], _ => none
  | p :: rest, sid => if p.1 = sid then some p.2 else Mask.lookup rest sid

/-- Embedding of `cond_mask.get(stock_id, default)` (`views.py` line 164): dict-style
lookup with a default for a missing key. -/
def Mask.getD (m : Mask) (sid : String) (dflt : Bool) : Bool :=
  match m.lookup sid with
  | some b => b
  | none => dflt

/-- Overwrite the entry of `sid` (if present) with `false` — the
"make one condition false for this instrument" experiment of the spec. -/
def Mask.setFalse (m : Mask) (sid : String) : Mask :=
  m.map fun p => if p.1 = sid then (p.1, false) else p

/-- The boolean series a condition produces over the whole dataset: one entry
per dataset row, keyed by stock id (every `*_check_df` function returns such a
series aligned with the dataframe index). -/
def condMask (ds : Dataset) (c : Cond) : Mask :=
  ds.rows.map fun r => (r.id, c.evalR r)

/-- A strategy: the ordered triple of condition lists returned by a
`_get_strategy_*` function of `views.py`. -/
structure Strategy where
  fundamental : List Cond
  technical : List Cond
  chip : List Cond
  deriving DecidableEq, Repr

/-- Embedding of `combined_mask = fundamental_mask + technical_mask + chip_mask`
(`views.py` line 143) at the level of condition lists: Python list
concatenation, not pointwise conjunction. -/
def combinedConds (s : Strategy) : List Cond :=
  s.fundamental ++ s.technical ++ s.chip

/-- The flattened list of boolean series handed to `df_mask_helper`
(`views.py` lines 140–143), assuming every referenced column is present. -/
def evalStrategyMasks (ds : Dataset) (s : Strategy) : List Mask :=
  (combinedConds s).map (condMask ds)

/-- Evaluation of one condition with the shape check.  Modelled from the spec
(§6/§7, the missing `app/strategies` modules): a column wholly absent from the
dataset schema makes the evaluation fail fast with a shape error (pandas
`KeyError`), before any instrument is considered. -/
def evalCondE (ds : Dataset) (c : Cond) : Except String Mask :=
  if c.requiredFields.all (fun f => decide (f ∈ ds.schema)) then
    Except.ok (condMask ds c)
  else
    Except.error "KeyError: required column absent from dataset"

/-- Evaluation of a whole strategy with shape-error propagation: every
condition list is produced before the masks are combined (`views.py` line
140); any missing column aborts the call with no partial results. -/
def evalStrategyE (ds : Dataset) (s : Strategy) : Except String (List Mask) :=
  (combinedConds s).mapM (evalCondE ds)

/-- Modelled from the spec: `df_mask_helper` of the missing `app/utils`
module — "An instrument passes iff every condition map yields true for it
(full conjunction — logical AND across the entire flattened list)". -/
def passesAll (masks : List Mask) (sid : String) : Bool :=
  masks.all fun m => m.lookup sid == some true

/-- Modelled from the spec: the row filtering performed by
`df_mask_helper(market_data_df, combined_mask)` (`views.py` line 144) —
keeps, in dataframe order, exactly the rows whose id passes every mask. -/
def df_mask_helper (ds : Dataset) (masks : List Mask) : List StockRecord :=
  ds.rows.filter fun r => passesAll masks r.id

/-- Ascending comparison on the industry column (`產業別`), the sort key of
`views.py` line 147. -/
def industryLe (a b : StockRecord) : Prop :=
  a.industry ≤ b.industry

instance : DecidableRel industryLe := fun a b =>
  inferInstanceAs (Decidable (a.industry ≤ b.industry))

instance : IsTotal StockRecord industryLe :=
  ⟨fun a b => le_total a.industry b.industry⟩

instance : IsTrans StockRecord industryLe :=
  ⟨fun _ _ _ hab hbc => le_trans hab hbc⟩

/-- Embedding of `watch_list_df.sort_values(by=["產業別"], ascending=False)` (`views.py`
line 147).  Pandas sorts descending by reversing the frame, taking an
ascending argsort, and reversing again (`pandas.core.sorting.nargsort`).
The ascending argsort kernel here is insertion sort, which fixes one
admissible tie order (it is the call's exact behaviour whenever numpy's
introsort stays in its insertion-sort regime, i.e. partitions of at most 16
elements); the call's default `kind='quicksort'` guarantees no tie order
beyond that regime, and every theorem below about this function uses only
its tie-order-independent consequences (membership and permutation).  The
tie order the default kind actually produces on larger inputs is modelled
separately by `npyArgsortQuicksort` below. -/
def sortValuesDescIndustry (rows : List StockRecord) : List StockRecord :=
  ((rows.reverse).insertionSort industryLe).reverse

/-- Embedding of `market_data_df.index.difference(watch_list_df.index)` (`views.py` line
156): the ids present in the dataset but not in the watch list, deduplicated
and sorted ascending (pandas `Index.difference` returns a sorted index). -/
def excludedIds (ds : Dataset) (watch : List StockRecord) : List String :=
  (((ds.rows.map (·.id)).filter fun i =>
      !((watch.map (·.id)).contains i)).dedup).insertionSort (· ≤ ·)

/-- Embedding of `condition_names = [f"條件{i+1}" for i in range(len(combined_mask))]`
(`views.py` line 158). -/
def conditionLabel (i : Nat) : String :=
  "條件" ++ toString i

def conditionLabels (n : Nat) : List String :=
  (List.range n).map fun i => conditionLabel (i + 1)

/-- The rejection-reason list built for one excluded stock (`views.py` lines
160–165): the labels of the conditions whose series says `False` for the id,
a missing id defaulting to `True` (not-failing). -/
def failedConditions (masks : List Mask) (sid : String) : List String :=
  ((conditionLabels masks.length).zip masks).filterMap fun p =>
    if p.2.getD sid true = false then some p.1 else none

/-- Embedding of `_update_watch_list` (`views.py` lines 132–170) with the strategy's masks
already evaluated: the sorted passing rows plus, for the audit log, each
excluded id with its failed-condition labels (`other_funcs` is `None` in
every call of the program). -/
def updateWatchList (ds : Dataset) (combined : List Mask) :
    List StockRecord × List (String × List String) :=
  let watch := sortValuesDescIndustry (df_mask_helper ds combined)
  let ex := excludedIds ds watch
  (watch, ex.map fun sid => (sid, failedConditions combined sid))

-- ---- 策略 1 相關 (views.py lines 25–37) ----
def STRAT1_MIN_CLOSE_PRICE : ℚ := 10
def STRAT1_RED_K_RATIO : ℚ := 0.995
def STRAT1_BREAK_HIGH_RATIO : ℚ := 1.00
def STRAT1_K9_DIFF_THRESHOLD : ℚ := 50
def STRAT1_J9_UPPER_LIMIT : ℚ := 80
def STRAT1_TWO_DAY_GAIN_RATIO : ℚ := 1.005
def STRAT1_LIMIT_UP_RATIO : ℚ := 1.02
def STRAT1_UPPER_SHADOW_THRESHOLD : ℚ := 0.06
def STRAT1_SKYROCKET_N_DAYS : Nat := 5
def STRAT1_SKYROCKET_K_CHANGE : ℚ := 0.12
def STRAT1_VOLUME_THRESHOLD : ℚ := 400
def STRAT1_MEAN5_VOLUME_THRESHOLD : ℚ := 800
def STRAT1_MEAN20_VOLUME_THRESHOLD : ℚ := 800

-- ---- 策略 2 相關 (views.py lines 40–42) ----
def STRAT2_MIN_CLOSE_PRICE : ℚ := 20
def STRAT2_J9_UPPER_LIMIT : ℚ := 100
def STRAT2_VOLUME_THRESHOLD : ℚ := 1500

-- ---- 策略 3 相關 (views.py lines 45–48) ----
def STRAT3_MIN_CLOSE_PRICE : ℚ := 20
def STRAT3_ONE_DAY_GAIN_RATIO : ℚ := 1.003
def STRAT3_K9_LOWER_LIMIT : ℚ := 15
def STRAT3_VOLUME_THRESHOLD : ℚ := 200

/-- Embedding of `_get_strategy_1` (`views.py` lines 176–277): 策略 1 —
growth + moving-average uptrend + skyrocket potential. -/
def strategy1 : Strategy where
  fundamental := [.revenueGrowthAny]
  technical := [
    .constantCheck .close .more STRAT1_MIN_CLOSE_PRICE 1,
    .greaterOrLessOneDay .close .mean5 .more 1 1,
    .greaterOrLessOneDay .mean5 .mean20 .more 1 1,
    .greaterOrLessOneDay .mean20 .mean60 .more 1 1,
    .greaterOrLessOneDay .close .openPrice .more STRAT1_RED_K_RATIO 1,
    .greaterOrLessTwoDay .close .high .more STRAT1_BREAK_HIGH_RATIO 1,
    .greaterOrLessTwoDay .k9 .k9 .more 1 1,
    .constantCheck .d9 .less 90 1,
    .differenceOneDay .k9 .d9 STRAT1_K9_DIFF_THRESHOLD 1,
    .constantCheck .j9 .less STRAT1_J9_UPPER_LIMIT 1,
    .greaterOrLessTwoDay .close .close .more STRAT1_TWO_DAY_GAIN_RATIO 1,
    .notC (.greaterOrLessTwoDay .close .close .more STRAT1_LIMIT_UP_RATIO 2),
    .differenceTwoDay .high .close .less STRAT1_UPPER_SHADOW_THRESHOLD .close 1,
    .skyrocket STRAT1_SKYROCKET_N_DAYS STRAT1_SKYROCKET_K_CHANGE 2]
  chip := [
    .volumeGreater STRAT1_VOLUME_THRESHOLD 1,
    .greaterOrLessTwoDay .volume .volume .more 1 1,
    .greaterOrLessOneDay .volume .mean5vol .more 1 1,
    .constantCheck .mean5vol .more STRAT1_MEAN5_VOLUME_THRESHOLD 1,
    .constantCheck .mean20vol .more STRAT1_MEAN20_VOLUME_THRESHOLD 1,
    .greaterOrLessTwoDay .mean5vol .mean5vol .more 1 1,
    .foreignBuyPositive 0]

/-- Embedding of `_get_strategy_2` (`views.py` lines 280–329): 策略 2 —
momentum + moving-average uptrend (in the catalog, not in the daily run). -/
def strategy2 : Strategy where
  fundamental := [.revenueGrowthAny]
  technical := [
    .constantCheck .close .more STRAT2_MIN_CLOSE_PRICE 1,
    .greaterOrLessOneDay .close .mean5 .more 1 1,
    .greaterOrLessOneDay .close .mean20 .more 1 1,
    .greaterOrLessTwoDay .mean60 .mean60 .more 1 1,
    .greaterOrLessOneDay .k9 .d9 .more 1 1,
    .greaterOrLessTwoDay .j9 .j9 .more 1 1,
    .greaterOrLessTwoDay .osc .osc .more 1 1,
    .constantCheck .j9 .less STRAT2_J9_UPPER_LIMIT 1]
  chip := [
    .volumeGreater STRAT2_VOLUME_THRESHOLD 1,
    .greaterOrLessTwoDay .volume .volume .more 1 1,
    .greaterOrLessOneDay .volume .mean5vol .more 1 1]

/-- Embedding of `_get_strategy_3` (`views.py` lines 332–388): 策略 3 —
pullback then renewed strength + skyrocket conditions. -/
def strategy3 : Strategy where
  fundamental := []
  technical := [
    .constantCheck .close .more STRAT3_MIN_CLOSE_PRICE 1,
    .greaterOrLessTwoDay .close .close .more STRAT3_ONE_DAY_GAIN_RATIO 1,
    .greaterOrLessOneDay .close .openPrice .more 1 1,
    .greaterOrLessOneDay .close .mean60 .more 1 1,
    .greaterOrLessTwoDay .mean20 .mean20 .more 1 1,
    .greaterOrLessTwoDay .mean60 .mean60 .more 1 1,
    .notC (.greaterOrLessOneDay .low .mean20 .more 1 5),
    .notC (.greaterOrLessTwoDay .close .close .more 1 2),
    .greaterOrLessTwoDay .k9 .k9 .more 1 1,
    .constantCheck .k9 .more STRAT3_K9_LOWER_LIMIT 1,
    .skyrocket STRAT1_SKYROCKET_N_DAYS STRAT1_SKYROCKET_K_CHANGE 0]
  chip := [
    .volumeGreater STRAT3_VOLUME_THRESHOLD 1,
    .greaterOrLessTwoDay .volume .volume .less 1 1,
    .foreignBuyPositive 0]

/-- The strategy catalog: every `_get_strategy_*` function of `views.py`. -/
def strategyCatalog : List Strategy := [strategy1, strategy2, strategy3]

/-- The strategies the daily run applies (`views.py` lines 73–79): only
策略1 and 策略3. -/
def dailyStrategies : List Strategy := [strategy1, strategy3]

/-- Outcome of one daily run. -/
inductive RunResult
  | holidaySkip
  | marketClosedSkip
  | ran (results : List (List StockRecord × List (String × List String)))
  deriving DecidableEq

/-- Embedding of `_update_watch_list` applied to one strategy, with shape-error propagation. -/
def updateWatchListE (ds : Dataset) (s : Strategy) :
    Except String (List StockRecord × List (String × List String)) :=
  (evalStrategyE ds s).map (updateWatchList ds)

/-- Embedding of `update_and_broadcast` (`views.py` lines 55–93), its screening part:
skip on holidays (`is_weekday`, from the missing `app/utils`, enters as the
boolean `isWeekday`), skip when the merged dataset has no rows, otherwise
evaluate exactly the daily strategies in order.  Data download and LINE
broadcasting are external collaborators and are outside the embedding. -/
def update_and_broadcast (isWeekday : Bool) (ds : Dataset) : Except String RunResult :=
  if isWeekday = false then Except.ok RunResult.holidaySkip
  else if ds.rows.isEmpty then Except.ok RunResult.marketClosedSkip
  else (dailyStrategies.mapM fun s => updateWatchListE ds s).map RunResult.ran

/-- Embedding of `_update_watch_list` with its observable side channel made explicit: the
only state the function touches besides its arguments is the logger, modelled
as a list of emitted lines threaded through the call.  The strategy name
(`strategy_name`) is used in log lines only. -/
def updateWatchListLogged (ds : Dataset) (combined : List Mask) (stratName : String)
    (log : List String) :
    (List StockRecord × List (String × List String)) × List String :=
  let watch := sortValuesDescIndustry (df_mask_helper ds combined)
  let ex := excludedIds ds watch
  ((watch, ex.map fun sid => (sid, failedConditions combined sid)),
    log
      ++ [stratName ++ " | 原始股票數量: " ++ toString ds.rows.length]
      ++ (ex.map fun sid =>
          stratName ++ " | " ++ sid ++ " 被排除原因: "
            ++ String.intercalate ", " (failedConditions combined sid))
      ++ [stratName ++ " | 通過股票數量: " ++ toString watch.length])

/-- The part of the Flask app config that the `/update` route reads and
writes (`src/app/routes.py`). -/
structure AppConfig where
  isUpdating : Bool               -- app.config["is_updating"], absent ≡ false
  apiAccessToken : Option String  -- app.config["API_ACCESS_TOKEN"], may be unset
  deriving DecidableEq, Repr

/-- The request data the `/update` route reads.  A header that is absent maps
to `none`; Flask never yields `some ""` for a present header, but the model
keeps the Python truthiness test (`if not token`) which also catches it. -/
structure UpdateRequest where
  apiAccessToken : Option String   -- header "API-Access-Token"
  targetDate : Option String       -- header "Target-Date"
  needBroadcastHeader : Option String
  needBroadcastArg : Option String
  deriving DecidableEq, Repr

/-- What one call of the `/update` route produces: the HTTP status, the new
busy flag, and whether a background update task was spawned. -/
structure UpdateOutcome where
  status : Nat
  isUpdating : Bool
  spawned : Bool
  needBroadcast : Bool
  deriving DecidableEq, Repr

/-- Success predicate of `datetime.datetime.strptime(date_str, "%Y-%m-%d")`, embedding the
stdlib parse: three dash-separated all-digit groups — exactly four year
digits (CPython's `_strptime` regex for `%Y` is `\d\d\d\d`), month and day
of one or two digits with optional zero padding — forming a valid calendar
date. -/
def validDateString (s : String) : Bool :=
  match s.splitOn "-" with
  | [y, m, d] =>
    y.length = 4 && y.all Char.isDigit &&
    m.length ≥ 1 && m.length ≤ 2 && m.all Char.isDigit &&
    d.length ≥ 1 && d.length ≤ 2 && d.all Char.isDigit &&
    (let yn := y.toNat!; let mn := m.toNat!; let dn := d.toNat!
     let leap := (yn % 4 = 0 && yn % 100 ≠ 0) || yn % 400 = 0
     let maxDay : Nat :=
       if mn = 2 then (if leap then 29 else 28)
       else if mn = 4 || mn = 6 || mn = 9 || mn = 11 then 30 else 31
     decide (1 ≤ yn) && decide (1 ≤ mn) && decide (mn ≤ 12) &&
     decide (1 ≤ dn) && decide (dn ≤ maxDay))
  | _ => false

/-- Python truthiness of an optional header string (`if not token`). -/
def headerTruthy : Option String → Bool
  | none => false
  | some s => !(s.isEmpty)

/-- The `/update` route (`src/app/routes.py` lines 51–105): busy-flag guard,
API-token validation, target-date parsing, broadcast-flag parsing, then flag
set and background task spawn. -/
def updateRoute (cfg : AppConfig) (req : UpdateRequest) : UpdateOutcome :=
  if cfg.isUpdating then
    { status := 429, isUpdating := cfg.isUpdating, spawned := false, needBroadcast := false }
  else if headerTruthy req.apiAccessToken = false then
    { status := 401, isUpdating := cfg.isUpdating, spawned := false, needBroadcast := false }
  else if req.apiAccessToken ≠ cfg.apiAccessToken then
    { status := 401, isUpdating := cfg.isUpdating, spawned := false, needBroadcast := false }
  else if (match req.targetDate with
           | some s => !(validDateString s)
           | none => false) then
    { status := 400, isUpdating := cfg.isUpdating, spawned := false, needBroadcast := false }
  else
    -- str(need_broadcast).lower() == "true": header if truthy, else query arg,
    -- else Python str(None) = "None"
    let nb := if headerTruthy req.needBroadcastHeader then req.needBroadcastHeader.getD ""
              else if headerTruthy req.needBroadcastArg then req.needBroadcastArg.getD ""
              else "None"
    { status := 200, isUpdating := true, spawned := true,
      needBroadcast := nb.toLower == "true" }

/-- Windowed predicate families: the six condition families that take the
lookback parameter `days` and form the conjunction over the trailing window.
(`skyrocket` has an existential window, and `foreignBuyPositive` /
`revenueGrowthAny` read the latest observation only.) -/
def Cond.isWindowed : Cond → Bool
  | .constantCheck _ _ _ _ => true
  | .greaterOrLessOneDay _ _ _ _ _ => true
  | .greaterOrLessTwoDay _ _ _ _ _ => true
  | .differenceOneDay _ _ _ _ => true
  | .differenceTwoDay _ _ _ _ _ _ => true
  | .volumeGreater _ _ => true
  | _ => false

/-- The same condition with its `days` lookback parameter replaced. -/
def Cond.withDays : Cond → Nat → Cond
  | .constantCheck f op thr _, k => .constantCheck f op thr k
  | .greaterOrLessOneDay a b op ratio _, k => .greaterOrLessOneDay a b op ratio k
  | .greaterOrLessTwoDay a b op ratio _, k => .greaterOrLessTwoDay a b op ratio k
  | .differenceOneDay a b thr _, k => .differenceOneDay a b thr k
  | .differenceTwoDay a b op factor nf _, k => .differenceTwoDay a b op factor nf k
  | .volumeGreater thr _, k => .volumeGreater thr k
  | c, _ => c

/-- The underlying per-offset comparison of a windowed condition family
(independent of the stored `days` parameter). -/
def Cond.stepFn : Cond → StockRecord → Nat → Bool
  | .constantCheck f op thr _, r, t => constantStep f op thr r t
  | .greaterOrLessOneDay a b op ratio _, r, t => oneDayStep a b op ratio r t
  | .greaterOrLessTwoDay a b op ratio _, r, t => twoDayStep a b op ratio r t
  | .differenceOneDay a b thr _, r, t => differenceOneDayStep a b thr r t
  | .differenceTwoDay a b op factor nf _, r, t => differenceTwoDayStep a b op factor nf r t
  | .volumeGreater thr _, r, t => volumeStep thr r t
  | c, r, _ => c.evalR r

/-- The flattened mask list with the `i`-th condition's entry for `sid`
forced to `false` — the "flip one condition for one instrument"
experiment of the spec's conjunction law. -/
def masksWithCondFalse (masks : List Mask) (i : Nat) (sid : String) : List Mask :=
  masks.set i ((masks.getD i []).setFalse sid)

/-- Strategy A's condition list as the specification enumerates it
(§4.2, bullet "Strategy A (growth/trend breakout)"), in the bullet's order:
positive revenue growth on at least one of three metrics; close above
minimum; close > MA5; MA5 > MA20; MA20 > MA60; same-day red-candle body;
break of yesterday's high; rising k-oscillator; bounded k−d spread; bounded
j value; one-day gain above a ratio; never two consecutive days above the
stricter ratio; bounded upper-shadow length; skyrocket match; volume above
threshold; volume above yesterday's volume; volume above the 5-day average
volume; volume above the 20-day average volume; 5-day average volume rising;
5-day average volume above threshold; non-negative institutional net buy. -/
def strategyASpecConds : List Cond := [
  .revenueGrowthAny,
  .constantCheck .close .more STRAT1_MIN_CLOSE_PRICE 1,
  .greaterOrLessOneDay .close .mean5 .more 1 1,
  .greaterOrLessOneDay .mean5 .mean20 .more 1 1,
  .greaterOrLessOneDay .mean20 .mean60 .more 1 1,
  .greaterOrLessOneDay .close .openPrice .more STRAT1_RED_K_RATIO 1,
  .greaterOrLessTwoDay .close .high .more STRAT1_BREAK_HIGH_RATIO 1,
  .greaterOrLessTwoDay .k9 .k9 .more 1 1,
  .differenceOneDay .k9 .d9 STRAT1_K9_DIFF_THRESHOLD 1,
  .constantCheck .j9 .less STRAT1_J9_UPPER_LIMIT 1,
  .greaterOrLessTwoDay .close .close .more STRAT1_TWO_DAY_GAIN_RATIO 1,
  .notC (.greaterOrLessTwoDay .close .close .more STRAT1_LIMIT_UP_RATIO 2),
  .differenceTwoDay .high .close .less STRAT1_UPPER_SHADOW_THRESHOLD .close 1,
  .skyrocket STRAT1_SKYROCKET_N_DAYS STRAT1_SKYROCKET_K_CHANGE 2,
  .volumeGreater STRAT1_VOLUME_THRESHOLD 1,
  .greaterOrLessTwoDay .volume .volume .more 1 1,
  .greaterOrLessOneDay .volume .mean5vol .more 1 1,
  .greaterOrLessOneDay .volume .mean20vol .more 1 1,
  .greaterOrLessTwoDay .mean5vol .mean5vol .more 1 1,
  .constantCheck .mean5vol .more STRAT1_MEAN5_VOLUME_THRESHOLD 1,
  .foreignBuyPositive 0]

/-- Strategy A's condition list as the amended claim enumerates it: as the
spec's bullet, but with the d-oscillator upper bound (`d9 < 90`) between the
rising-k and bounded-spread conditions, with "volume above the 20-day average
volume" removed, and with "20-day average volume above its threshold" added —
and in the code's flattened order (fundamental, technical, chip). -/
def strategyAAmendedConds : List Cond := [
  .revenueGrowthAny,
  .constantCheck .close .more STRAT1_MIN_CLOSE_PRICE 1,
  .greaterOrLessOneDay .close .mean5 .more 1 1,
  .greaterOrLessOneDay .mean5 .mean20 .more 1 1,
  .greaterOrLessOneDay .mean20 .mean60 .more 1 1,
  .greaterOrLessOneDay .close .openPrice .more STRAT1_RED_K_RATIO 1,
  .greaterOrLessTwoDay .close .high .more STRAT1_BREAK_HIGH_RATIO 1,
  .greaterOrLessTwoDay .k9 .k9 .more 1 1,
  .constantCheck .d9 .less 90 1,
  .differenceOneDay .k9 .d9 STRAT1_K9_DIFF_THRESHOLD 1,
  .constantCheck .j9 .less STRAT1_J9_UPPER_LIMIT 1,
  .greaterOrLessTwoDay .close .close .more STRAT1_TWO_DAY_GAIN_RATIO 1,
  .notC (.greaterOrLessTwoDay .close .close .more STRAT1_LIMIT_UP_RATIO 2),
  .differenceTwoDay .high .close .less STRAT1_UPPER_SHADOW_THRESHOLD .close 1,
  .skyrocket STRAT1_SKYROCKET_N_DAYS STRAT1_SKYROCKET_K_CHANGE 2,
  .volumeGreater STRAT1_VOLUME_THRESHOLD 1,
  .greaterOrLessTwoDay .volume .volume .more 1 1,
  .greaterOrLessOneDay .volume .mean5vol .more 1 1,
  .constantCheck .mean5vol .more STRAT1_MEAN5_VOLUME_THRESHOLD 1,
  .constantCheck .mean20vol .more STRAT1_MEAN20_VOLUME_THRESHOLD 1,
  .greaterOrLessTwoDay .mean5vol .mean5vol .more 1 1,
  .foreignBuyPositive 0]

/-- A token that is missing or does not equal the configured token — the
request class the access-control claim quantifies over. -/
def tokenMissingOrInvalid (cfg : AppConfig) (req : UpdateRequest) : Bool :=
  req.apiAccessToken.isNone || decide (req.apiAccessToken ≠ cfg.apiAccessToken)

/-- A concrete market-data row used to instantiate the theorems below. -/
def sampleRec : StockRecord where
  id := "2330"
  name := "台積電"
  industry := "半導體"
  close := [10, 11, 12]
  openPrice := [9, 10, 11]
  high := [11, 12, 13]
  low := [8, 9, 10]
  volume := [1000, 1100, 1200]
  mean5 := [10, 10, 11]
  mean20 := [9, 9, 10]
  mean60 := [8, 8, 9]
  k9 := [50, 55, 60]
  d9 := [45, 50, 55]
  j9 := [60, 65, 70]
  osc := [1, 2, 3]
  mean5vol := [900, 950, 1000]
  mean20vol := [850, 900, 950]
  foreignBuy := 5
  revMoM := 1
  revYoY := 2
  revCumYoY := 3

/-- The schema of a fully-populated dataset. -/
def fullSchema : List Field := [
  .close, .openPrice, .high, .low, .volume, .mean5, .mean20, .mean60,
  .k9, .d9, .j9, .osc, .mean5vol, .mean20vol, .foreignBuy,
  .revMoM, .revYoY, .revCumYoY]

/-- A one-row dataset used to instantiate the theorems below. -/
def sampleDataset : Dataset := ⟨fullSchema, [sampleRec]⟩

/-- A one-condition mask list that rejects the sample row. -/
def sampleMasks : List Mask := [[("2330", false)]]

/-- A one-condition strategy used to instantiate the theorems below. -/
def sampleStrategy : Strategy := ⟨[], [.constantCheck .close .more 0 1], []⟩

/-- Lexicographic code-point comparison of character lists — Python's `<` on
strings, the comparison pandas uses to sort an object-dtype column. -/
def strLtB : List Char → List Char → Bool
  | [], [] => false
  | [], _ :: _ => true
  | _ :: _, [] => false
  | a :: as, b :: bs =>
    if a.val < b.val then true
    else if b.val < a.val then false
    else strLtB as bs

def keyLt (a b : String) : Bool := strLtB a.data b.data

/-- Read of the index array `tosort` at position `i` (in-range by the sort's
invariants; out-of-range defaults never arise on the evaluated inputs). -/
def idxGet (xs : List Nat) (i : Nat) : Nat := xs.getD i 0

/-- The `INTP_SWAP` of numpy's sort: swap two positions of the index array. -/
def idxSwap (xs : List Nat) (i j : Nat) : List Nat :=
  (xs.set i (idxGet xs j)).set j (idxGet xs i)

def keyAt (keys : List String) (i : Nat) : String := keys.getD i ""

/-- The `SMALL_QUICKSORT` constant of numpy's `npysort/quicksort.c.src`:
partitions of at most this pointer-span (16 elements) are insertion-sorted. -/
def smallQuicksort : Nat := 15

/-- The `do ++pi; while (Type_LT(v[*pi], vp))` scan of numpy's argsort
partition, started at the already-incremented position; `none` flags fuel
exhaustion (never hit on the evaluated inputs). -/
def scanUp (keys : List String) (tosort : List Nat) (vp : String) :
    Nat → Nat → Option Nat
  | 0, _ => none
  | fuel + 1, p =>
    if keyLt (keyAt keys (idxGet tosort p)) vp then scanUp keys tosort vp fuel (p + 1)
    else some p

/-- The `do --pj; while (Type_LT(vp, v[*pj]))` scan, started at the
already-decremented position. -/
def scanDown (keys : List String) (tosort : List Nat) (vp : String) :
    Nat → Nat → Option Nat
  | 0, _ => none
  | fuel + 1, p =>
    if keyLt vp (keyAt keys (idxGet tosort p)) then scanDown keys tosort vp fuel (p - 1)
    else some p

/-- The partition exchange loop of numpy's argsort quicksort: scan up, scan
down, stop when the scans cross, otherwise swap and continue.  Returns the
updated index array and the crossing position `pi`. -/
def partLoop (keys : List String) (vp : String) :
    Nat → List Nat → Nat → Nat → Option (List Nat × Nat)
  | 0, _, _, _ => none
  | fuel + 1, tosort, pi, pj => do
    let pi2 ← scanUp keys tosort vp (fuel + 1) (pi + 1)
    let pj2 ← scanDown keys tosort vp (fuel + 1) (pj - 1)
    if pi2 ≥ pj2 then some (tosort, pi2)
    else partLoop keys vp fuel (idxSwap tosort pi2 pj2) pi2 pj2

/-- The shifting inner loop of numpy's argsort insertion sort:
`while (pj > pl && Type_LT(vp, v[*pk])) *pj-- = *pk--`. -/
def insShift (keys : List String) (vp : String) (pl : Nat) :
    Nat → List Nat → Nat → Option (List Nat × Nat)
  | 0, _, _ => none
  | fuel + 1, tosort, pj =>
    if pj > pl && keyLt vp (keyAt keys (idxGet tosort (pj - 1))) then
      insShift keys vp pl fuel (tosort.set pj (idxGet tosort (pj - 1))) (pj - 1)
    else some (tosort, pj)

/-- The argsort insertion sort numpy runs on a small partition `[pl, pr]`. -/
def insLoop (keys : List String) (pl pr : Nat) :
    Nat → List Nat → Nat → Option (List Nat)
  | 0, _, _ => none
  | fuel + 1, tosort, pi =>
    if pi > pr then some tosort
    else do
      let vi := idxGet tosort pi
      let vp := keyAt keys vi
      let (t2, pj) ← insShift keys vp pl (fuel + 1) tosort pi
      insLoop keys pl pr fuel (t2.set pj vi) (pi + 1)

/-- The driver of numpy's `npy_aquicksort` (`npysort/quicksort.c.src`), the
argsort run for `kind='quicksort'`: while the current partition spans more
than `SMALL_QUICKSORT`, take the median-of-3 pivot (with its conditional
swaps), move the pivot next to the right end, run the partition exchange
loop, restore the pivot at the crossing point, push the larger side on the
stack and iterate on the smaller; small partitions are insertion-sorted and
the stack is popped until empty.  `depth` is the shared introsort depth
budget (`npy_get_msb(num) * 2`); the heapsort fallback it triggers lies
outside the modelled path and yields `none`, as does fuel exhaustion — so a
`some` result certifies the run stayed on the modelled path. -/
def aqMain (keys : List String) :
    Nat → List Nat → List (Nat × Nat) → Nat → Nat → Int → Option (List Nat)
  | 0, _, _, _, _, _ => none
  | fuel + 1, tosort, stack, pl, pr, depth =>
    if pr > pl + smallQuicksort then
      if depth < 0 then none
      else do
        let pm := pl + (pr - pl) / 2
        let t1 := if keyLt (keyAt keys (idxGet tosort pm)) (keyAt keys (idxGet tosort pl))
                  then idxSwap tosort pm pl else tosort
        let t2 := if keyLt (keyAt keys (idxGet t1 pr)) (keyAt keys (idxGet t1 pm))
                  then idxSwap t1 pr pm else t1
        let t3 := if keyLt (keyAt keys (idxGet t2 pm)) (keyAt keys (idxGet t2 pl))
                  then idxSwap t2 pm pl else t2
        let vp := keyAt keys (idxGet t3 pm)
        let t4 := idxSwap t3 pm (pr - 1)
        let (t5, pi) ← partLoop keys vp (fuel + 1) t4 pl (pr - 1)
        let t6 := idxSwap t5 pi (pr - 1)
        if pi - pl < pr - pi then
          aqMain keys fuel t6 ((pi + 1, pr) :: stack) pl (pi - 1) (depth - 1)
        else
          aqMain keys fuel t6 ((pl, pi - 1) :: stack) (pi + 1) pr (depth - 1)
    else do
      let t2 ← insLoop keys pl pr (fuel + 1) tosort (pl + 1)
      match stack with
      | [] => some t2
      | (l, r) :: rest => aqMain keys fuel t2 rest l r depth

/-- numpy `argsort` with the default `kind='quicksort'` on an object (string)
column — the ascending argsort kernel `sort_values` actually runs. -/
def npyArgsortQuicksort (keys : List String) : Option (List Nat) :=
  match keys.length with
  | 0 => some []
  | n => aqMain keys ((n + 2) * (n + 2)) (List.range n) [] 0 (n - 1) (2 * (Nat.log2 n : Int))

/-- Embedding of `sort_values(by=["產業別"], ascending=False)` with the tie
order of the call's actual default argsort kernel: pandas `nargsort` reverses
the frame, takes the ascending `kind='quicksort'` argsort, and reverses the
result (`rev.get?` is total on the in-range permutation indices the argsort
returns). -/
def sort_values_desc_quicksort (rows : List StockRecord) : Option (List StockRecord) :=
  let rev := rows.reverse
  (npyArgsortQuicksort (rev.map (·.industry))).map fun idx =>
    (idx.filterMap fun i => rev.get? i).reverse

/-- One row of the failing input for the stability claim. -/
def cementRow (i : Nat) : StockRecord :=
  { sampleRec with id := toString (i + 1), industry := "水泥工業" }

/-- The failing input for the stability claim: 17 instruments, all in the
same industry (one more row than numpy's insertion-sort regime covers). -/
def cementRows : List StockRecord := (List.range 17).map cementRow

theorem windowAll_eq_true_iff (k : Nat) (p : Nat → Bool) :
    windowAll k p = true ↔ ∀ t, t < k → p t = true := by
  simp [windowAll, List.all_eq_true, List.mem_range]

theorem windowAll_one (p : Nat → Bool) : windowAll 1 p = p 0 := by
  have h : List.range 1 = [0] := rfl
  simp [windowAll, h]

theorem windowAll_le_one (k : Nat) (p : Nat → Bool) (hk : 1 ≤ k)
    (h : windowAll k p = true) : windowAll 1 p = true := by
  rw [windowAll_one]
  exact (windowAll_eq_true_iff k p).mp h 0 hk

/-- C4.  For every windowed predicate family of the indicator library and
every lookback `days = k ≥ 1`, the predicate holds for an instrument iff the
family's per-offset comparison holds at each of the trailing `k` day-offsets
(conjunction over the window); hence the result with `days = k` implies the
result with `days = 1`, and with `days = 1` the result equals the direct
comparison on the latest observation (offset 0). -/
theorem c4_window_conjunction (c : Cond) (r : StockRecord) (k : Nat)
    (hw : c.isWindowed = true) (hk : 1 ≤ k) :
    ((c.withDays k).evalR r = true ↔ ∀ t, t < k → c.stepFn r t = true)
  ∧ ((c.withDays k).evalR r = true → (c.withDays 1).evalR r = true)
  ∧ ((c.withDays 1).evalR r = c.stepFn r 0) := by
  cases c <;>
    first
    | exact ⟨windowAll_eq_true_iff k _, windowAll_le_one k _ hk, windowAll_one _⟩
    | exact absurd hw (by simp [Cond.isWindowed])

theorem c4_window_conjunction_witness :
    Cond.isWindowed (Cond.constantCheck .close .more 10 1) = true
  ∧ (1 : Nat) ≤ 2
  ∧ (Cond.evalR (Cond.withDays (Cond.constantCheck .close .more 10 1) 1) sampleRec
       = Cond.stepFn (Cond.constantCheck .close .more 10 1) sampleRec 0) :=
  ⟨by decide, by decide,
    (c4_window_conjunction (Cond.constantCheck .close .more 10 1) sampleRec 2
      (by decide) (by decide)).2.2⟩

/-- C8.  Evaluating the same dataset against the same mask list twice yields
identical passing sequences and audit maps: the result does not depend on the
logger state (the only state `_update_watch_list` touches) nor on the
strategy name, a second run reproduces the first, and the result equals the
pure function `updateWatchList` of the inputs alone. -/
theorem c8_deterministic (ds : Dataset) (masks : List Mask) (n1 n2 : String)
    (log1 log2 : List String) :
    (updateWatchListLogged ds masks n1 log1).1 = (updateWatchListLogged ds masks n2 log2).1
  ∧ (updateWatchListLogged ds masks n1 ((updateWatchListLogged ds masks n1 log1).2)).1
      = (updateWatchListLogged ds masks n1 log1).1
  ∧ (updateWatchListLogged ds masks n1 log1).1 = updateWatchList ds masks :=
  ⟨rfl, rfl, rfl⟩

/-- C6.  An empty dataset (market closed) is not an error: the daily run is
skipped with zero strategies evaluated, and on an empty dataset the filter
returns an empty passing list and an empty excluded map for every mask
list. -/
theorem c6_empty_dataset_skip (isWeekday : Bool) (sch : List Field) (masks : List Mask) :
    update_and_broadcast isWeekday ⟨sch, []⟩
      = Except.ok (if isWeekday then RunResult.marketClosedSkip else RunResult.holidaySkip)
  ∧ updateWatchList ⟨sch, []⟩ masks = ([], []) := by
  constructor
  · cases isWeekday <;> rfl
  · rfl

theorem sortValues_perm (rows : List StockRecord) :
    List.Perm (sortValuesDescIndustry rows) rows :=
  (List.reverse_perm _).trans
    ((List.perm_insertionSort industryLe rows.reverse).trans (List.reverse_perm rows))

/-- C3.  The claim's stability conjunct — equal-industry instruments keep
their dataset order for every dataset — fails on the code's sort: `views.py`
line 147 calls `sort_values` with the default `kind='quicksort'`, and on a
17-row dataset whose instruments all share one industry, numpy's argsort
quicksort permutes the tied indices during its pivot and partition swaps
(the ascending argsort of 17 equal keys is not the identity), so the sorted
watch list does not preserve the dataset order of the tied rows.  The `some`
results certify the evaluation stayed on the modelled algorithm path (no
heapsort fallback, no fuel exhaustion).  The claim states the spec's intent
(§4.3 step 4, §8 "Sorting is stable"); the code misses `kind='stable'`. -/
theorem c3_quicksort_tie_reorder :
    npyArgsortQuicksort (List.replicate 17 "水泥工業")
      = some [0, 14, 13, 12, 11, 10, 9, 15, 8, 6, 5, 4, 3, 2, 1, 7, 16]
  ∧ [0, 14, 13, 12, 11, 10, 9, 15, 8, 6, 5, 4, 3, 2, 1, 7, 16] ≠ List.range 17
  ∧ cementRows.all (fun r => r.industry == "水泥工業") = true
  ∧ (sort_values_desc_quicksort cementRows).isSome = true
  ∧ sort_values_desc_quicksort cementRows ≠ some cementRows
  ∧ (sort_values_desc_quicksort cementRows).map (List.map (·.id))
      = some ["1", "10", "16", "15", "14", "13", "12", "11", "9",
              "2", "8", "7", "6", "5", "4", "3", "17"] := by
  decide

theorem Mask.lookup_setFalse (m : Mask) (sid : String) (h : sid ∈ m.map (·.1)) :
    (m.setFalse sid).lookup sid = some false := by
  induction m with
  | nil => simp at h
  | cons p rest ih =>
    by_cases hp : p.1 = sid
    · simp [Mask.setFalse, Mask.lookup, hp]
    · have h' : sid ∈ rest.map (·.1) := by
        rw [List.map_cons, List.mem_cons] at h
        rcases h with h | h
        · exact absurd h.symm hp
        · exact h
      simpa [Mask.setFalse, Mask.lookup, hp] using ih h'

theorem condMask_keys (ds : Dataset) (c : Cond) :
    (condMask ds c).map (·.1) = ds.rows.map (·.id) := by
  simp [condMask, List.map_map]

theorem mem_watch_map_id (ds : Dataset) (masks : List Mask) (sid : String) :
    sid ∈ (updateWatchList ds masks).1.map (·.id) ↔
      (sid ∈ ds.rows.map (·.id) ∧ passesAll masks sid = true) := by
  have hperm : List.Perm (updateWatchList ds masks).1 (df_mask_helper ds masks) :=
    sortValues_perm _
  rw [(hperm.map (·.id)).mem_iff]
  unfold df_mask_helper
  simp only [List.mem_map, List.mem_filter]
  constructor
  · rintro ⟨r, ⟨hr, hp⟩, hid⟩
    exact ⟨⟨r, hr, hid⟩, hid ▸ hp⟩
  · rintro ⟨⟨r, hr, hid⟩, hpass⟩
    refine ⟨r, ⟨hr, ?_⟩, hid⟩
    rw [hid]
    exact hpass

theorem mem_excludedIds (ds : Dataset) (watch : List StockRecord) (sid : String) :
    sid ∈ excludedIds ds watch ↔
      (sid ∈ ds.rows.map (·.id) ∧ sid ∉ watch.map (·.id)) := by
  unfold excludedIds
  rw [List.mem_insertionSort, List.mem_dedup, List.mem_filter]
  simp

/-- C1.  An instrument id appears in the returned passing watch list iff
every mask in the strategy's flattened mask list (fundamental, then
technical, then chip) is true for that id, and forcing any single mask to
false for that id removes it from the passing list and places it in the
excluded set. -/
theorem c1_conjunction_law (ds : Dataset) (s : Strategy) (sid : String) (i : Nat)
    (hmem : sid ∈ ds.rows.map (·.id))
    (hi : i < (evalStrategyMasks ds s).length) :
    (sid ∈ (updateWatchList ds (evalStrategyMasks ds s)).1.map (·.id) ↔
       passesAll (evalStrategyMasks ds s) sid = true)
  ∧ sid ∉ (updateWatchList ds
      (masksWithCondFalse (evalStrategyMasks ds s) i sid)).1.map (·.id)
  ∧ sid ∈ (updateWatchList ds
      (masksWithCondFalse (evalStrategyMasks ds s) i sid)).2.map (·.1) := by
  have part1 := (mem_watch_map_id ds (evalStrategyMasks ds s) sid).trans
    (and_iff_right hmem)
  -- the i-th mask holds an entry for sid, and setFalse pins it to false
  have hkey : sid ∈ ((evalStrategyMasks ds s).getD i []).map (·.1) := by
    have hi' : i < (combinedConds s).length := by
      simpa [evalStrategyMasks] using hi
    rw [List.getD_eq_getElem _ _ hi]
    unfold evalStrategyMasks
    rw [List.getElem_map]
    rw [condMask_keys]
    exact hmem
  have hlook : (((evalStrategyMasks ds s).getD i []).setFalse sid).lookup sid = some false :=
    Mask.lookup_setFalse _ _ hkey
  have hmemM : ((evalStrategyMasks ds s).getD i []).setFalse sid
      ∈ masksWithCondFalse (evalStrategyMasks ds s) i sid := by
    unfold masksWithCondFalse
    have hlen : i < ((evalStrategyMasks ds s).set i
        (((evalStrategyMasks ds s).getD i []).setFalse sid)).length := by
      simpa using hi
    have hset := List.getElem_set_self (l := evalStrategyMasks ds s)
      (a := ((evalStrategyMasks ds s).getD i []).setFalse sid) (h := hlen)
    have hmm := List.getElem_mem hlen
    rwa [hset] at hmm
  have hfalse : passesAll (masksWithCondFalse (evalStrategyMasks ds s) i sid) sid = false := by
    cases hP : passesAll (masksWithCondFalse (evalStrategyMasks ds s) i sid) sid with
    | false => rfl
    | true =>
      unfold passesAll at hP
      have := List.all_eq_true.mp hP _ hmemM
      rw [hlook] at this
      simp at this
  have part2 : sid ∉ (updateWatchList ds
      (masksWithCondFalse (evalStrategyMasks ds s) i sid)).1.map (·.id) := by
    intro hIn
    have := (mem_watch_map_id ds _ sid).mp hIn
    rw [hfalse] at this
    exact absurd this.2 (by simp)
  refine ⟨part1, part2, ?_⟩
  have hsnd : (updateWatchList ds (masksWithCondFalse (evalStrategyMasks ds s) i sid)).2.map (·.1)
      = excludedIds ds (sortValuesDescIndustry
          (df_mask_helper ds (masksWithCondFalse (evalStrategyMasks ds s) i sid))) := by
    have heq : (updateWatchList ds (masksWithCondFalse (evalStrategyMasks ds s) i sid)).2
        = (excludedIds ds (sortValuesDescIndustry
            (df_mask_helper ds (masksWithCondFalse (evalStrategyMasks ds s) i sid)))).map
          (fun sid2 => (sid2, failedConditions
            (masksWithCondFalse (evalStrategyMasks ds s) i sid) sid2)) := rfl
    rw [heq, List.map_map]
    exact List.map_id _
  rw [hsnd]
  rw [mem_excludedIds]
  exact ⟨hmem, part2⟩

theorem c1_conjunction_law_witness :
    ("2330" ∈ sampleDataset.rows.map (·.id))
  ∧ 0 < (evalStrategyMasks sampleDataset sampleStrategy).length
  ∧ (("2330" ∈ (updateWatchList sampleDataset
        (evalStrategyMasks sampleDataset sampleStrategy)).1.map (·.id) ↔
        passesAll (evalStrategyMasks sampleDataset sampleStrategy) "2330" = true)
    ∧ "2330" ∉ (updateWatchList sampleDataset
        (masksWithCondFalse (evalStrategyMasks sampleDataset sampleStrategy) 0 "2330")).1.map (·.id)
    ∧ "2330" ∈ (updateWatchList sampleDataset
        (masksWithCondFalse (evalStrategyMasks sampleDataset sampleStrategy) 0 "2330")).2.map (·.1)) :=
  ⟨by decide, by decide,
    c1_conjunction_law sampleDataset sampleStrategy "2330" 0 (by decide) (by decide)⟩

theorem filterMap_ext_fun {α β : Type} (l : List α) (f g : α → Option β)
    (h : ∀ a, f a = g a) : l.filterMap f = l.filterMap g := by
  induction l with
  | nil => rfl
  | cons a l ih => simp [List.filterMap_cons, h a, ih]

theorem failedConditions_eq_enum (masks : List Mask) (sid : String) :
    failedConditions masks sid
      = (masks.enum).filterMap
        (fun p => if p.2.lookup sid = some false then some (conditionLabel (p.1 + 1)) else none) := by
  unfold failedConditions conditionLabels
  rw [List.zip_map_left, ← List.enum_eq_zip_range, List.filterMap_map]
  apply filterMap_ext_fun
  rintro ⟨i, m⟩
  rcases hkv : Mask.lookup m sid with _ | b
  · simp [Mask.getD, hkv, Function.comp, Prod.map]
  · cases b <;> simp [Mask.getD, hkv, Function.comp, Prod.map]

/-- C2.  For every excluded instrument, the audit list attached to it equals
exactly the ordered sequence of positional labels (條件1, 條件2, … in
flattened-list order) of the conditions whose result map contains the
instrument's id with value `false`; a condition whose result map lacks the id
contributes no label. -/
theorem c2_audit_labels (ds : Dataset) (masks : List Mask) (sid : String) (ls : List String)
    (h : (sid, ls) ∈ (updateWatchList ds masks).2) :
    ls = (masks.enum).filterMap
      (fun p => if p.2.lookup sid = some false then some (conditionLabel (p.1 + 1)) else none) := by
  have h2 : (updateWatchList ds masks).2
      = (excludedIds ds (sortValuesDescIndustry (df_mask_helper ds masks))).map
        (fun sid2 => (sid2, failedConditions masks sid2)) := rfl
  rw [h2, List.mem_map] at h
  rcases h with ⟨x, _, hpair⟩
  have hx : x = sid := congrArg Prod.fst hpair
  have hls : failedConditions masks x = ls := congrArg Prod.snd hpair
  rw [← hls, hx]
  exact failedConditions_eq_enum masks sid

theorem c2_audit_labels_witness :
    (("2330", ["條件1"]) ∈ (updateWatchList sampleDataset sampleMasks).2)
  ∧ ["條件1"] = (sampleMasks.enum).filterMap
      (fun p => if p.2.lookup "2330" = some false then some (conditionLabel (p.1 + 1)) else none) :=
  ⟨by decide,
    c2_audit_labels sampleDataset sampleMasks "2330" ["條件1"] (by decide)⟩

theorem exists_error_mapM (ds : Dataset) (c : Cond) (l : List Cond) (hc : c ∈ l)
    (he : ∃ e0, evalCondE ds c = Except.error e0) :
    ∃ e, l.mapM (evalCondE ds) = Except.error e := by
  rw [← List.mapM'_eq_mapM]
  induction l with
  | nil => cases hc
  | cons a as ih =>
    simp only [List.mapM']
    rcases ha : evalCondE ds a with e | m
    · exact ⟨e, rfl⟩
    · rcases List.mem_cons.mp hc with rfl | hmem
      · rcases he with ⟨e0, he0⟩
        rw [ha] at he0
        exact absurd he0 (by simp)
      · rcases ih hmem with ⟨e, hE⟩
        refine ⟨e, ?_⟩
        show ((List.mapM' (evalCondE ds) as).bind fun xs =>
          pure (m :: xs) : Except String _) = Except.error e
        rw [hE]
        rfl

theorem evalCondE_error (ds : Dataset) (c : Cond) (f : Field)
    (hf : f ∈ c.requiredFields) (hfs : f ∉ ds.schema) :
    evalCondE ds c = Except.error "KeyError: required column absent from dataset" := by
  unfold evalCondE
  rw [if_neg]
  intro hall
  have hdec := List.all_eq_true.mp hall f hf
  simp only [decide_eq_true_eq] at hdec
  exact hfs hdec

/-- C5.  For every dataset whose schema lacks the oscillator column, the
filter call on the strategy that reads it (策略 2) fails with a shape error
regardless of the rows, i.e. before any instrument is evaluated; in general,
any column required by any condition of a strategy that is absent from the
dataset schema makes the whole evaluation call return an error, with no
partial results (the `Except` result carries either all masks or none). -/
theorem c5_shape_error_fail_fast (sch : List Field) (rows : List StockRecord)
    (s : Strategy) (c : Cond) (f : Field)
    (hosc : Field.osc ∉ sch)
    (hc : c ∈ combinedConds s) (hf : f ∈ c.requiredFields) (hfs : f ∉ sch) :
    (∃ e, evalStrategyE ⟨sch, rows⟩ strategy2 = Except.error e)
  ∧ (∃ e, evalStrategyE ⟨sch, rows⟩ s = Except.error e) := by
  constructor
  · exact exists_error_mapM ⟨sch, rows⟩ (Cond.greaterOrLessTwoDay .osc .osc .more 1 1)
      (combinedConds strategy2) (by decide)
      ⟨_, evalCondE_error ⟨sch, rows⟩ _ .osc (by decide) hosc⟩
  · exact exists_error_mapM ⟨sch, rows⟩ c (combinedConds s) hc
      ⟨_, evalCondE_error ⟨sch, rows⟩ c f hf hfs⟩

theorem c5_shape_error_fail_fast_witness :
    (Field.osc ∉ ([] : List Field))
  ∧ (Cond.greaterOrLessTwoDay .osc .osc .more 1 1 ∈ combinedConds strategy2)
  ∧ (Field.osc ∈ (Cond.greaterOrLessTwoDay .osc .osc .more 1 1).requiredFields)
  ∧ ((∃ e, evalStrategyE ⟨[], [sampleRec]⟩ strategy2 = Except.error e)
    ∧ (∃ e, evalStrategyE ⟨[], [sampleRec]⟩ strategy2 = Except.error e)) :=
  ⟨by decide, by decide, by decide,
    c5_shape_error_fail_fast [] [sampleRec] strategy2
      (Cond.greaterOrLessTwoDay .osc .osc .more 1 1) .osc
      (by decide) (by decide) (by decide) (by decide)⟩

unseal Rat.ofScientific Rat.mul Rat.inv Rat.add Rat.sub in
/-- C7 counterexample.  Strategy A's flattened condition list is not exactly
the list the spec enumerates: the code carries a `d9 < 90` bound that the
spec's enumeration omits, the code checks the 20-day average volume against a
threshold instead of the enumerated "volume above the 20-day average volume",
so the two lists differ. -/
theorem c7_counterexample_strategyA_list :
    Cond.constantCheck .d9 .less 90 1 ∈ combinedConds strategy1
  ∧ Cond.constantCheck .d9 .less 90 1 ∉ strategyASpecConds
  ∧ combinedConds strategy1 ≠ strategyASpecConds := by decide

/-- C7 amended.  Strategy A's flattened condition list consists exactly of
the spec's enumeration corrected in two points: a d-oscillator upper bound
(`d9 < 90`) is part of the oscillator block, and the volume block requires
the volume above the 5-day average volume with both the 5-day and the 20-day
average volumes above their thresholds (there is no "volume above the 20-day
average volume" condition) — and of nothing else. -/
theorem c7_strategyA_list_amended :
    combinedConds strategy1 = strategyAAmendedConds := rfl

/-- C9.  Strategy B (策略 2) is defined in the strategy catalog but the daily
run never evaluates it: the run's outcome is a function of the evaluations of
Strategy A (策略 1) and Strategy C (策略 3) alone. -/
theorem c9_strategyB_not_in_daily_run :
    strategy2 ∈ strategyCatalog
  ∧ strategy2 ∉ dailyStrategies
  ∧ strategy2 ≠ strategy1
  ∧ strategy2 ≠ strategy3
  ∧ (∀ (isWeekday : Bool) (ds : Dataset),
      update_and_broadcast isWeekday ds =
        if isWeekday = false then Except.ok RunResult.holidaySkip
        else if ds.rows.isEmpty then Except.ok RunResult.marketClosedSkip
        else do
          let r1 ← updateWatchListE ds strategy1
          let r3 ← updateWatchListE ds strategy3
          Except.ok (RunResult.ran [r1, r3])) := by
  refine ⟨by decide, by decide, by decide, by decide, ?_⟩
  intro isW ds
  cases isW
  · rfl
  · by_cases hrows : ds.rows.isEmpty
    · simp [update_and_broadcast, hrows]
    · simp only [update_and_broadcast, dailyStrategies, hrows]
      rw [← List.mapM'_eq_mapM]
      simp only [List.mapM']
      rcases h1 : updateWatchListE ds strategy1 with e1 | v1 <;>
        rcases h3 : updateWatchListE ds strategy3 with e3 | v3 <;>
        simp [h1, h3, Except.map, Bind.bind, Except.bind, Pure.pure, Except.pure]

/-- C10 counterexample.  A request whose API-Access-Token header is missing
does not always receive status 401: when an update is already in progress the
busy-flag guard answers first and the endpoint returns 429. -/
theorem c10_counterexample_busy_flag_before_auth :
    tokenMissingOrInvalid ⟨true, some "token"⟩ ⟨none, none, none, none⟩ = true
  ∧ (updateRoute ⟨true, some "token"⟩ ⟨none, none, none, none⟩).status = 429
  ∧ (updateRoute ⟨true, some "token"⟩ ⟨none, none, none, none⟩).status ≠ 401 := by
  decide

/-- C10 amended.  When no update is in progress, a request whose
API-Access-Token header is missing or does not equal the configured token
receives status 401 and starts no update work (no background task is spawned
and the busy flag stays unset); when an update is in progress the endpoint
returns 429 and likewise starts nothing; and in every case a present,
non-empty token equal to the configured one is a precondition for an update
task to be spawned. -/
theorem c10_auth_amended (cfg : AppConfig) (req : UpdateRequest)
    (cfg2 : AppConfig) (req2 : UpdateRequest) (cfg3 : AppConfig) (req3 : UpdateRequest)
    (hidle : cfg.isUpdating = false)
    (hbad : tokenMissingOrInvalid cfg req = true)
    (hsp : (updateRoute cfg2 req2).spawned = true)
    (hbusy : cfg3.isUpdating = true) :
    ((updateRoute cfg req).status = 401
      ∧ (updateRoute cfg req).spawned = false
      ∧ (updateRoute cfg req).isUpdating = false)
  ∧ (∃ t, req2.apiAccessToken = some t ∧ t ≠ "" ∧ cfg2.apiAccessToken = some t)
  ∧ ((updateRoute cfg3 req3).status = 429 ∧ (updateRoute cfg3 req3).spawned = false) := by
  refine ⟨?_, ?_, ?_⟩
  · rcases hT : req.apiAccessToken with _ | t
    · simp [updateRoute, hidle, hT, headerTruthy]
    · have hne : req.apiAccessToken ≠ cfg.apiAccessToken := by
        simp only [tokenMissingOrInvalid, hT, Option.isNone_some, Bool.false_or,
          decide_eq_true_eq] at hbad
        rw [hT]
        exact hbad
      by_cases hemp : t = ""
      · subst hemp
        simp [updateRoute, hidle, hT, headerTruthy, show "".isEmpty = true from rfl]
      · have hne2 : ¬(some t = cfg.apiAccessToken) := by
          rw [hT] at hne
          exact hne
        simp [updateRoute, hidle, hT, hne2, headerTruthy, String.isEmpty_iff, hemp]
  · unfold updateRoute at hsp
    split at hsp
    · exact absurd hsp (by simp)
    · split at hsp
      · exact absurd hsp (by simp)
      · split at hsp
        · exact absurd hsp (by simp)
        · split at hsp
          · exact absurd hsp (by simp)
          · rename_i hnb hT hEq hDate
            rcases hTok : req2.apiAccessToken with _ | t
            · rw [hTok] at hT
              exact absurd hT (by simp [headerTruthy])
            · refine ⟨t, rfl, ?_, ?_⟩
              · intro hcontra
                subst hcontra
                rw [hTok] at hT
                exact hT (by decide)
              · simp only [ne_eq, Decidable.not_not] at hEq
                rw [← hEq, hTok]
  · simp [updateRoute, hbusy]

theorem c10_auth_amended_witness :
    ((false : Bool) = false)
  ∧ tokenMissingOrInvalid ⟨false, some "tok"⟩ ⟨none, none, none, none⟩ = true
  ∧ (updateRoute ⟨false, some "tok"⟩ ⟨some "tok", none, none, none⟩).spawned = true
  ∧ ((true : Bool) = true)
  ∧ (((updateRoute ⟨false, some "tok"⟩ ⟨none, none, none, none⟩).status = 401
      ∧ (updateRoute ⟨false, some "tok"⟩ ⟨none, none, none, none⟩).spawned = false
      ∧ (updateRoute ⟨false, some "tok"⟩ ⟨none, none, none, none⟩).isUpdating = false)
    ∧ (∃ t, (some "tok" : Option String) = some t ∧ t ≠ ""
        ∧ (some "tok" : Option String) = some t)
    ∧ ((updateRoute ⟨true, some "tok"⟩ ⟨none, none, none, none⟩).status = 429
      ∧ (updateRoute ⟨true, some "tok"⟩ ⟨none, none, none, none⟩).spawned = false)) :=
  ⟨rfl, by decide, by decide, rfl,
    c10_auth_amended ⟨false, some "tok"⟩ ⟨none, none, none, none⟩
      ⟨false, some "tok"⟩ ⟨some "tok", none, none, none⟩
      ⟨true, some "tok"⟩ ⟨none, none, none, none⟩
      (by decide) (by decide) (by decide) (by decide)⟩

end MyStock
